import Mathlib

/-!
Verification development for the template-based auto router
(`litellm/router_strategy/auto_router/`): a shallow embedding of
`template_router.py` (the `TemplateRouter` facade over the drain3 template
mining engine and the pickled metadata overlay) and of
`auto_router.py` (`AutoRouter.async_pre_routing_hook`), together with
theorems settling the specification claims.

The template mining engine itself (drain3's `TemplateMiner`) is an external
dependency whose code is not part of this repository; its definitions below
are modelled from the specification (§4.1 of the design document), while the
facade, overlay and hook definitions are translated directly from the
repository's Python source.
-/

/-- Modelled from the spec: a template position is either a concrete token or
the distinguished wildcard marker (spec §3 "wildcard marker"); the mining
engine code (drain3) is not part of this repository. -/
inductive TTok where
  | wild : TTok
  | tok : String → TTok
deriving DecidableEq, Repr

/-- Rendering of a template position for display: the wildcard marker prints
as the distinguished string `*`. -/
def renderTok : TTok → String
  | TTok.wild => "*"
  | TTok.tok s => s

/-- Split a character sequence on spaces, dropping empty fragments; `cur`
accumulates the current token in reverse. -/
def tokenizeChars : List Char → List Char → List String
  | [], cur => if cur = [] then [] else [String.mk cur.reverse]
  | c :: cs, cur =>
      if c = ' ' then
        if cur = [] then tokenizeChars cs []
        else String.mk cur.reverse :: tokenizeChars cs []
      else tokenizeChars cs (c :: cur)

/-- Modelled from the spec: the tokenizer splits a raw message on whitespace
into an ordered token sequence (spec §2 component 1, §3 "Token"); the
`message.strip()` performed by `add_log_message`/`match` is absorbed by
dropping empty fragments. -/
def tokenize (s : String) : List String :=
  tokenizeChars s.data []

/-- Modelled from the spec: a learned cluster — unique integer id, template
with wildcard positions, and the count of messages merged into it
(spec §3 "Cluster"). -/
structure Cluster where
  clusterId : Nat
  template : List TTok
  size : Nat
deriving DecidableEq, Repr

/-- Rendered template of a cluster, wildcards shown as `*` (the engine's
`get_template` view used by the facade). -/
def Cluster.getTemplate (c : Cluster) : List String :=
  c.template.map renderTok

/-- Modelled from the spec: the number of token positions where the template
position is already a wildcard or the template token equals the message token
at that position (spec §4.1 step 3). -/
def matchCount : List TTok → List String → Nat
  | [], _ => 0
  | _ :: _, [] => 0
  | t :: ts, w :: ws =>
      (if t = TTok.wild ∨ t = TTok.tok w then 1 else 0) + matchCount ts ws

/-- Modelled from the spec: similarity score — the fraction of matching token
positions (spec §4.1 step 3); an empty template matches an empty message
trivially (spec §7: an empty token sequence is handled, never raised on). -/
def similarity (tpl : List TTok) (toks : List String) : Rat :=
  if tpl.length = 0 then 1 else mkRat (matchCount tpl toks) tpl.length

/-- Modelled from the spec: select the candidate with the highest similarity
score; on ties the lowest cluster id wins, which is the earliest cluster in
creation order (spec §4.1 step 3 and tie-break note). -/
def pickBest (toks : List String) : List Cluster → Option (Cluster × Rat)
  | [] => none
  | c :: cs =>
      let s := similarity c.template toks
      match pickBest toks cs with
      | none => some (c, s)
      | some (c2, s2) => if s2 > s then some (c2, s2) else some (c, s)

/-- Modelled from the spec: the mining engine state — similarity threshold,
next fresh cluster id (ids are monotonically assigned and never reused,
spec §3), and the clusters in creation order. -/
structure Engine where
  threshold : Rat
  nextId : Nat
  clusters : List Cluster
deriving DecidableEq, Repr

/-- Classification of an insert outcome (spec glossary "Change type"). -/
inductive ChangeType where
  | clusterCreated
  | clusterTemplateChanged
  | noChange
deriving DecidableEq, Repr

/-- Result record of the mutating insert, as surfaced by
`TemplateRouter.add_log_message`: cluster id, mined template, change type. -/
structure InsertResult where
  clusterId : Nat
  templateMined : List String
  changeType : ChangeType
deriving DecidableEq, Repr

/-- Modelled from the spec: template generalization — every position where the
template token differs from the message token degrades to wildcard; wildcard
positions stay wildcard (spec §4.1 step 4, §3 invariant). -/
def generalizeTemplate : List TTok → List String → List TTok
  | [], _ => []
  | t :: ts, [] => t :: ts
  | t :: ts, w :: ws =>
      (if t = TTok.wild ∨ t = TTok.tok w then t else TTok.wild)
        :: generalizeTemplate ts ws

/-- Replace the template and size of the cluster with the given id, keeping
every other cluster untouched. -/
def updateCluster (cid : Nat) (tpl : List TTok) (sz : Nat) :
    List Cluster → List Cluster
  | [] => []
  | c :: cs =>
      if c.clusterId = cid then { c with template := tpl, size := sz } :: cs
      else c :: updateCluster cid tpl sz cs

/-- Modelled from the spec: creation of a fresh cluster whose template is the
message tokens verbatim, with size 1 (spec §4.1 steps 2 and 5). -/
def Engine.createCluster (e : Engine) (toks : List String) :
    Engine × InsertResult :=
  let c : Cluster := { clusterId := e.nextId, template := toks.map TTok.tok, size := 1 }
  ({ e with nextId := e.nextId + 1, clusters := e.clusters ++ [c] },
   { clusterId := c.clusterId, templateMined := toks,
     changeType := ChangeType.clusterCreated })

/-- Modelled from the spec: the mutating insert operation of the mining engine
(spec §4.1 `insert`): search the token-count bucket for the best candidate;
merge (generalizing the template and incrementing size) when the best score
reaches the threshold, otherwise create a new cluster. -/
def Engine.insert (e : Engine) (msg : String) : Engine × InsertResult :=
  let toks := tokenize msg
  let bucket := e.clusters.filter (fun c => c.template.length = toks.length)
  match pickBest toks bucket with
  | none => e.createCluster toks
  | some p =>
      if p.2 ≥ e.threshold then
        let c := p.1
        let tpl := generalizeTemplate c.template toks
        ({ e with clusters := updateCluster c.clusterId tpl (c.size + 1) e.clusters },
         { clusterId := c.clusterId,
           templateMined := tpl.map renderTok,
           changeType :=
             if tpl = c.template then ChangeType.noChange
             else ChangeType.clusterTemplateChanged })
      else e.createCluster toks

/-- Modelled from the spec: the read-only match operation (spec §4.1 `match`):
identical candidate search as insert, but it never mutates state and never
creates a cluster; returns nothing when no candidate in the token-count
bucket reaches the threshold. -/
def Engine.findMatch (e : Engine) (msg : String) : Option Cluster :=
  let toks := tokenize msg
  let bucket := e.clusters.filter (fun c => c.template.length = toks.length)
  match pickBest toks bucket with
  | none => none
  | some p => if p.2 ≥ e.threshold then some p.1 else none

/-- Lookup in an association map: the value at the first matching key
(Python `dict.get(k)` semantics for the maps kept duplicate-free below). -/
def alookup {α β : Type} [DecidableEq α] : List (α × β) → α → Option β
  | [], _ => none
  | (k, v) :: rest, k2 => if k = k2 then some v else alookup rest k2

/-- Overwrite-or-append in an association map (Python `d[k] = v`). -/
def ainsert {α β : Type} [DecidableEq α] : List (α × β) → α → β → List (α × β)
  | [], k, v => [(k, v)]
  | (k0, v0) :: rest, k, v =>
      if k0 = k then (k, v) :: rest else (k0, v0) :: ainsert rest k v

/-- Merge the key/value pairs of the second map into the first, later entries
overwriting earlier ones (Python `d.update(kwargs)`). -/
def aupdate {α β : Type} [DecidableEq α] (m kvs : List (α × β)) :
    List (α × β) :=
  kvs.foldl (fun acc kv => ainsert acc kv.1 kv.2) m

/-- A metadata record: an open string-keyed attribute map (at minimum `name`
and `target_model`), as stored per cluster id by `TemplateRouter`. -/
abbrev MetaRecord := List (String × String)

/-- The metadata overlay: cluster id to metadata record
(`TemplateRouter._cluster_metadata`). -/
abbrev MetaMap := List (Nat × MetaRecord)

/-- State of a `TemplateRouter` instance: the mining engine, the in-memory
metadata overlay, the durable content of the metadata file (`none` when no
valid snapshot is on disk), and whether disk writes currently fail. -/
structure RouterState where
  engine : Engine
  clusterMetadata : MetaMap
  disk : Option MetaMap
  diskFails : Bool
deriving DecidableEq, Repr

/-- Observable condition of the metadata snapshot file at construction time:
missing, present but corrupt/unreadable, or present with valid content. -/
inductive FileState where
  | missing
  | corrupt
  | good : MetaMap → FileState
deriving DecidableEq, Repr

/-- The two failure shapes of the raw metadata read distinguished by
`_load_metadata`: `FileNotFoundError` versus any other exception. -/
inductive LoadErr where
  | fileNotFound
  | otherFailure
deriving DecidableEq, Repr

/-- Raw read of the metadata snapshot (`open` + `pickle.load`): failure is an
exception, distinguished by kind. -/
def readMetadataFile : FileState → Except LoadErr MetaMap
  | FileState.missing => Except.error LoadErr.fileNotFound
  | FileState.corrupt => Except.error LoadErr.otherFailure
  | FileState.good m => Except.ok m

/-- Translation of `TemplateRouter._load_metadata` (template_router.py lines
40–50): every exception of the raw read is caught — `FileNotFoundError`
starts empty silently, any other failure starts empty after printing a
warning — so the function is total: no exception escapes. Returns the loaded
overlay and whether a warning was printed. -/
def loadMetadata (fs : FileState) : MetaMap × Bool :=
  match readMetadataFile fs with
  | Except.ok m => (m, false)
  | Except.error LoadErr.fileNotFound => ([], false)
  | Except.error LoadErr.otherFailure => ([], true)

/-- A fresh mining engine with no clusters (spec §4.1; ids start at 0). -/
def emptyEngine (threshold : Rat) : Engine :=
  { threshold := threshold, nextId := 0, clusters := [] }

/-- Translation of `TemplateRouter.__init__` together with `_load_metadata`:
construction always succeeds (a total function — `_load_metadata` catches
every exception), loading the overlay from the snapshot file. Returns the
constructed state and whether a load warning was printed. -/
def mkRouter (threshold : Rat) (fs : FileState) (diskFails : Bool) :
    RouterState × Bool :=
  let lm := loadMetadata fs
  ({ engine := emptyEngine threshold,
     clusterMetadata := lm.1,
     disk := match fs with | FileState.good m => some m | _ => none,
     diskFails := diskFails },
   lm.2)

/-- Translation of `TemplateRouter._save_metadata` (lines 52–58): writes the
entire overlay; on failure the error is printed and swallowed (`try/except`
around the write), so the function is total. Returns the new durable content
and whether an error was printed. -/
def saveMetadata (diskFails : Bool) (md : MetaMap) (disk : Option MetaMap) :
    Option MetaMap × Bool :=
  if diskFails then (disk, true) else (some md, false)

/-- Translation of `TemplateRouter.set_cluster_metadata` (lines 141–160):
create the record if absent, overwrite `name` only when the argument is
non-empty (Python truthiness of `str`), shallow-merge the keyword arguments,
then write the whole overlay through to disk. -/
def setClusterMetadata (s : RouterState) (cid : Nat) (name : String)
    (kwargs : MetaRecord) : RouterState :=
  let r0 := (alookup s.clusterMetadata cid).getD []
  let r1 := if name = "" then r0 else ainsert r0 "name" name
  let r2 := aupdate r1 kwargs
  let md := ainsert s.clusterMetadata cid r2
  let sv := saveMetadata s.diskFails md s.disk
  { s with clusterMetadata := md, disk := sv.1 }

/-- Result record returned by `TemplateRouter.match`: the Python dict always
carries all five keys; `target_model` may carry the value `None`, modelled as
`Option String`. -/
structure MatchResult where
  clusterId : Nat
  template : List String
  size : Nat
  name : String
  targetModel : Option String
deriving DecidableEq, Repr

/-- Translation of `TemplateRouter.match` (lines 94–121): delegate to the
engine's read-only match, then overlay metadata — `name` defaults to
`cluster_<id>` and `target_model` defaults to `None` when absent
(`.get(cluster_id, {}).get(key, default)`). -/
def RouterState.matchMsg (s : RouterState) (msg : String) : Option MatchResult :=
  match s.engine.findMatch msg with
  | none => none
  | some c =>
      some { clusterId := c.clusterId,
             template := c.getTemplate,
             size := c.size,
             name := (alookup ((alookup s.clusterMetadata c.clusterId).getD []) "name").getD
                       ("cluster_" ++ toString c.clusterId),
             targetModel :=
               alookup ((alookup s.clusterMetadata c.clusterId).getD []) "target_model" }

/-- Stateful view of `TemplateRouter.match`: the method body performs reads
only (engine match and dict lookups) and assigns to no attribute, so the
post-state is the pre-state. -/
def RouterState.matchStep (s : RouterState) (msg : String) :
    Option MatchResult × RouterState :=
  (s.matchMsg msg, s)

/-- Translation of `TemplateRouter.__call__` (lines 60–71): routing a prompt
delegates to `match` on the same text. -/
def RouterState.callRouter (s : RouterState) (text : String) :
    Option MatchResult :=
  s.matchMsg text

/-- Translation of `TemplateRouter.add_log_message` (lines 73–92): feed the
stripped message to the engine's mutating insert and surface cluster id,
mined template and change type. -/
def RouterState.addLogMessage (s : RouterState) (msg : String) :
    RouterState × InsertResult :=
  let r := s.engine.insert msg
  ({ s with engine := r.1 }, r.2)

/-- Per-cluster summary returned by `TemplateRouter.get_all_templates`. -/
structure TemplateSummary where
  clusterId : Nat
  template : List String
  size : Nat
  name : String
deriving DecidableEq, Repr

/-- Translation of `TemplateRouter.get_all_templates` (lines 123–139):
every cluster's id, rendered template, size and (possibly defaulted) name. -/
def RouterState.getAllTemplates (s : RouterState) : List TemplateSummary :=
  s.engine.clusters.map (fun c =>
    { clusterId := c.clusterId,
      template := c.getTemplate,
      size := c.size,
      name := (alookup ((alookup s.clusterMetadata c.clusterId).getD []) "name").getD
                ("cluster_" ++ toString c.clusterId) })

/-- A chat message as consumed by the hook: a dict whose `content` key may be
absent (`msg.get("content", "")` supplies the default). -/
structure Msg where
  content : Option String
deriving DecidableEq, Repr

/-- The response type of the pre-routing hook: chosen model (the Python value
may be `None`, see `dict.get` below) and the message list. -/
structure PreRoutingHookResponse where
  model : Option String
  messages : List Msg
deriving DecidableEq, Repr

/-- State of an `AutoRouter` instance as far as the template path is
concerned: the constructor-supplied default model and the (optional)
template route layer. -/
structure AutoRouterState where
  defaultModel : String
  templateRoutelayer : Option RouterState
deriving DecidableEq, Repr

/-- Translation of `AutoRouter.async_pre_routing_hook` (auto_router.py lines
148–211): `messages is None` returns `None`; otherwise `messages[-1]` is
read — which raises `IndexError` on an empty list, modelled as
`Except.error` — and the model is `template_match.get("target_model",
self.default_model)`; since the match dict always carries the
`target_model` key, that `get` returns the stored value even when it is
`None`, and the default only applies when no cluster matches or no template
route layer exists. -/
def asyncPreRoutingHook (ar : AutoRouterState) (messages : Option (List Msg)) :
    Except Unit (Option PreRoutingHookResponse) :=
  match messages with
  | none => Except.ok none
  | some msgs =>
      match msgs.getLast? with
      | none => Except.error ()
      | some userMessage =>
          let messageContent := userMessage.content.getD ""
          let model : Option String :=
            match ar.templateRoutelayer with
            | none => some ar.defaultModel
            | some tr =>
                match tr.matchMsg messageContent with
                | some templateMatch => templateMatch.targetModel
                | none => some ar.defaultModel
          Except.ok (some { model := model, messages := msgs })

theorem alookup_ainsert_self {α β : Type} [DecidableEq α] (m : List (α × β)) (k : α) (v : β) :
    alookup (ainsert m k v) k = some v := by
  induction m with
  | nil => simp [ainsert, alookup]
  | cons kv rest ih =>
      obtain ⟨k0, v0⟩ := kv
      by_cases h : k0 = k
      · subst h; simp [ainsert, alookup]
      · simp [ainsert, alookup, h, ih]

theorem alookup_ainsert_ne {α β : Type} [DecidableEq α] (m : List (α × β)) (k k2 : α) (v : β)
    (h : k2 ≠ k) : alookup (ainsert m k v) k2 = alookup m k2 := by
  induction m with
  | nil =>
      have hne : ¬ k = k2 := fun hh => h hh.symm
      simp [ainsert, alookup, hne]
  | cons kv rest ih =>
      obtain ⟨k0, v0⟩ := kv
      by_cases h0 : k0 = k
      · subst h0
        have hne : ¬ k0 = k2 := fun hh => h hh.symm
        simp [ainsert, alookup, hne]
      · simp [ainsert, alookup, h0, ih]

theorem alookup_eq_none_iff {α β : Type} [DecidableEq α] (m : List (α × β)) (k : α) :
    alookup m k = none ↔ k ∉ m.map Prod.fst := by
  induction m with
  | nil => simp [alookup]
  | cons kv rest ih =>
      obtain ⟨k0, v0⟩ := kv
      by_cases h : k0 = k
      · subst h; simp [alookup]
      · simp only [alookup, if_neg h, List.map_cons, List.mem_cons, ih]
        constructor
        · intro hnm hor
          rcases hor with he | hm
          · exact h he.symm
          · exact hnm hm
        · intro hall hm
          exact hall (Or.inr hm)

theorem alookup_aupdate_of_not_mem {α β : Type} [DecidableEq α] (m kvs : List (α × β)) (k : α)
    (h : k ∉ kvs.map Prod.fst) : alookup (aupdate m kvs) k = alookup m k := by
  induction kvs generalizing m with
  | nil => rfl
  | cons kv rest ih =>
      obtain ⟨k0, v0⟩ := kv
      simp only [List.map_cons, List.mem_cons] at h
      push_neg at h
      have hstep : aupdate m ((k0, v0) :: rest) = aupdate (ainsert m k0 v0) rest := rfl
      rw [hstep, ih _ h.2, alookup_ainsert_ne _ _ _ _ h.1]

theorem alookup_aupdate_of_mem {α β : Type} [DecidableEq α] (m kvs : List (α × β)) (k : α) (v : β)
    (hnd : (kvs.map Prod.fst).Nodup) (h : alookup kvs k = some v) :
    alookup (aupdate m kvs) k = some v := by
  induction kvs generalizing m with
  | nil => simp [alookup] at h
  | cons kv rest ih =>
      obtain ⟨k0, v0⟩ := kv
      simp only [List.map_cons, List.nodup_cons] at hnd
      have hstep : aupdate m ((k0, v0) :: rest) = aupdate (ainsert m k0 v0) rest := rfl
      by_cases hk : k0 = k
      · subst hk
        have hv : v0 = v := by simpa [alookup] using h
        subst hv
        rw [hstep, alookup_aupdate_of_not_mem _ _ _ hnd.1, alookup_ainsert_self]
      · rw [hstep]
        exact ih (ainsert m k0 v0) hnd.2 (by simpa [alookup, hk] using h)

/-- A fresh `TemplateRouter` over an empty engine with similarity threshold
1/2 and no metadata, as in the end-to-end scenario. -/
def scenarioState0 : RouterState :=
  { engine := emptyEngine (mkRat 1 2), clusterMetadata := [], disk := none,
    diskFails := false }

/-- First scenario step: observe "user order 123 failed". -/
def scenarioStep1 : RouterState × InsertResult :=
  scenarioState0.addLogMessage "user order 123 failed"

/-- Second scenario step: observe "user order 456 failed". -/
def scenarioStep2 : RouterState × InsertResult :=
  scenarioStep1.1.addLogMessage "user order 456 failed"

/-- Third scenario step: observe "user order 789 failed". -/
def scenarioStep3 : RouterState × InsertResult :=
  scenarioStep2.1.addLogMessage "user order 789 failed"

/-- C1: starting from an empty engine with threshold 0.5, observing
"user order 123 failed", "user order 456 failed", "user order 789 failed"
via `add_log_message` creates cluster 0 with template
["user","order","123","failed"] (change type cluster_created), then matches
cluster 0 generalizing the template to ["user","order","*","failed"]
(change type cluster_template_changed), then matches cluster 0 with no
template change; the final state has exactly one cluster of size 3 with
template ["user","order","*","failed"]. -/
theorem C1_end_to_end_scenario :
    scenarioStep1.2 = { clusterId := 0,
                        templateMined := ["user", "order", "123", "failed"],
                        changeType := ChangeType.clusterCreated } ∧
    scenarioStep2.2 = { clusterId := 0,
                        templateMined := ["user", "order", "*", "failed"],
                        changeType := ChangeType.clusterTemplateChanged } ∧
    scenarioStep3.2 = { clusterId := 0,
                        templateMined := ["user", "order", "*", "failed"],
                        changeType := ChangeType.noChange } ∧
    scenarioStep3.1.engine.clusters =
      [{ clusterId := 0,
         template := [TTok.tok "user", TTok.tok "order", TTok.wild, TTok.tok "failed"],
         size := 3 }] ∧
    scenarioStep3.1.getAllTemplates =
      [{ clusterId := 0, template := ["user", "order", "*", "failed"],
         size := 3, name := "cluster_0" }] := by
  decide

/-- C4: calling `match` twice in a row with no intervening `add_log_message`
returns identical results both times, and neither call changes the engine
state (cluster sizes, templates) or the metadata overlay: the method body is
read-only, so its stateful view returns the pre-state unchanged. -/
theorem C4_match_idempotent_and_pure (s : RouterState) (m : String) :
    (s.matchStep m).1 = ((s.matchStep m).2.matchStep m).1 ∧
    (s.matchStep m).2 = s ∧
    ((s.matchStep m).2.matchStep m).2 = s ∧
    (s.matchStep m).2.engine.clusters.map Cluster.size
      = s.engine.clusters.map Cluster.size ∧
    (s.matchStep m).2.engine.clusters.map Cluster.template
      = s.engine.clusters.map Cluster.template ∧
    (s.matchStep m).2.clusterMetadata = s.clusterMetadata :=
  ⟨rfl, rfl, rfl, rfl, rfl, rfl⟩

/-- C6: constructing a `TemplateRouter` whose metadata snapshot file is
missing, or present but corrupt/unreadable, always succeeds (`mkRouter` is a
total function: `_load_metadata` catches every exception of the raw read):
the overlay initializes empty, with a warning printed exactly in the
corrupt/unreadable case. -/
theorem C6_construction_tolerates_bad_snapshot (threshold : Rat) (df : Bool) :
    (mkRouter threshold FileState.missing df).1.clusterMetadata = [] ∧
    (mkRouter threshold FileState.missing df).2 = false ∧
    (mkRouter threshold FileState.corrupt df).1.clusterMetadata = [] ∧
    (mkRouter threshold FileState.corrupt df).2 = true ∧
    readMetadataFile FileState.missing = Except.error LoadErr.fileNotFound ∧
    readMetadataFile FileState.corrupt = Except.error LoadErr.otherFailure :=
  ⟨rfl, rfl, rfl, rfl, rfl, rfl⟩

/-- C8: `set_cluster_metadata` never consults the mining engine, so the
resulting overlay is the same whatever the engine state (in particular for
ids that exist in no cluster), and the annotated record is stored and
visible to subsequent metadata reads. -/
theorem C8_no_cluster_id_validation (s : RouterState) (e2 : Engine) (cid : Nat)
    (name : String) (kwargs : MetaRecord) :
    (setClusterMetadata s cid name kwargs).clusterMetadata
      = (setClusterMetadata { s with engine := e2 } cid name kwargs).clusterMetadata ∧
    ∃ r : MetaRecord,
      alookup (setClusterMetadata s cid name kwargs).clusterMetadata cid = some r :=
  ⟨rfl, ⟨_, alookup_ainsert_self _ _ _⟩⟩

/-- C9: calling the router as a function (`TemplateRouter.__call__`, the
`route` operation) returns exactly the result of `match` on the same text in
the same state. -/
theorem C9_call_equals_match (s : RouterState) (text : String) :
    s.callRouter text = s.matchMsg text :=
  rfl

/-- C2: for every message whose engine match succeeds, `TemplateRouter.match`
returns the matched cluster id, its template, its size, a name equal to the
stored metadata name when a record with a name exists and otherwise the
deterministic default string cluster_<id>, and a target handler equal to the
stored metadata value when present and otherwise nothing; when the engine
finds no match, `match` returns nothing. -/
theorem C2_match_result_contents (s : RouterState) (msg : String) :
    (s.engine.findMatch msg = none → s.matchMsg msg = none) ∧
    (∀ c : Cluster, s.engine.findMatch msg = some c →
      ∃ r : MatchResult, s.matchMsg msg = some r ∧
        r.clusterId = c.clusterId ∧
        r.template = c.getTemplate ∧
        r.size = c.size ∧
        (∀ n : String,
          alookup ((alookup s.clusterMetadata c.clusterId).getD []) "name" = some n →
          r.name = n) ∧
        (alookup ((alookup s.clusterMetadata c.clusterId).getD []) "name" = none →
          r.name = "cluster_" ++ toString c.clusterId) ∧
        r.targetModel
          = alookup ((alookup s.clusterMetadata c.clusterId).getD []) "target_model") := by
  constructor
  · intro h
    simp [RouterState.matchMsg, h]
  · intro c h
    refine ⟨{ clusterId := c.clusterId,
              template := c.getTemplate,
              size := c.size,
              name := (alookup ((alookup s.clusterMetadata c.clusterId).getD []) "name").getD
                        ("cluster_" ++ toString c.clusterId),
              targetModel :=
                alookup ((alookup s.clusterMetadata c.clusterId).getD []) "target_model" },
            ?_, rfl, rfl, rfl, ?_, ?_, rfl⟩
    · simp [RouterState.matchMsg, h]
    · intro n hn
      simp [hn]
    · intro hn
      simp [hn]

/-- Witness cluster: the generalized order-failure template. -/
def witnessCluster : Cluster :=
  { clusterId := 0,
    template := [TTok.tok "user", TTok.tok "order", TTok.wild, TTok.tok "failed"],
    size := 3 }

/-- Witness router: one learned cluster with a full metadata record. -/
def witnessRouter : RouterState :=
  { engine := { threshold := mkRat 1 2, nextId := 1, clusters := [witnessCluster] },
    clusterMetadata := [(0, [("name", "order-failures"), ("target_model", "gpt-4o")])],
    disk := none, diskFails := false }

/-- Witness for C2 at a concrete router and message with a successful engine
match. -/
theorem C2_match_result_contents_witness :
    witnessRouter.engine.findMatch "user order 999 failed" = some witnessCluster ∧
    (∃ r : MatchResult, witnessRouter.matchMsg "user order 999 failed" = some r ∧
      r.clusterId = witnessCluster.clusterId ∧
      r.template = witnessCluster.getTemplate ∧
      r.size = witnessCluster.size ∧
      (∀ n : String,
        alookup ((alookup witnessRouter.clusterMetadata witnessCluster.clusterId).getD []) "name"
          = some n → r.name = n) ∧
      (alookup ((alookup witnessRouter.clusterMetadata witnessCluster.clusterId).getD []) "name"
          = none → r.name = "cluster_" ++ toString witnessCluster.clusterId) ∧
      r.targetModel
        = alookup ((alookup witnessRouter.clusterMetadata witnessCluster.clusterId).getD [])
            "target_model") :=
  ⟨by decide,
   (C2_match_result_contents witnessRouter "user order 999 failed").2 witnessCluster (by decide)⟩

/-- C3: `set_cluster_metadata` creates the record if absent, overwrites the
stored name exactly when the provided name is non-empty, shallow-merges the
keyword arguments into the record (same-named keys overwritten, unmentioned
keys preserved, other records untouched — never a full replace), and then
writes the entire overlay through to durable storage. -/
theorem C3_set_cluster_metadata_contract (s : RouterState) (cid : Nat)
    (name : String) (kwargs : MetaRecord)
    (hnd : (kwargs.map Prod.fst).Nodup) (hdisk : s.diskFails = false) :
    ∃ r : MetaRecord,
      alookup (setClusterMetadata s cid name kwargs).clusterMetadata cid = some r ∧
      (∀ k v, alookup kwargs k = some v → alookup r k = some v) ∧
      (∀ k, alookup kwargs k = none → k ≠ "name" →
        alookup r k = alookup ((alookup s.clusterMetadata cid).getD []) k) ∧
      (alookup kwargs "name" = none →
        alookup r "name" =
          if name = "" then alookup ((alookup s.clusterMetadata cid).getD []) "name"
          else some name) ∧
      (∀ cid2, cid2 ≠ cid →
        alookup (setClusterMetadata s cid name kwargs).clusterMetadata cid2
          = alookup s.clusterMetadata cid2) ∧
      (setClusterMetadata s cid name kwargs).disk
        = some (setClusterMetadata s cid name kwargs).clusterMetadata := by
  refine ⟨aupdate (if name = "" then (alookup s.clusterMetadata cid).getD []
                   else ainsert ((alookup s.clusterMetadata cid).getD []) "name" name) kwargs,
          ?_, ?_, ?_, ?_, ?_, ?_⟩
  · exact alookup_ainsert_self _ _ _
  · intro k v hk
    exact alookup_aupdate_of_mem _ _ _ _ hnd hk
  · intro k hk hkn
    have hnm : k ∉ kwargs.map Prod.fst := (alookup_eq_none_iff _ _).1 hk
    rw [alookup_aupdate_of_not_mem _ _ _ hnm]
    by_cases hn : name = ""
    · simp [hn]
    · simp [hn, alookup_ainsert_ne _ _ _ _ hkn]
  · intro hk
    have hnm : "name" ∉ kwargs.map Prod.fst := (alookup_eq_none_iff _ _).1 hk
    rw [alookup_aupdate_of_not_mem _ _ _ hnm]
    by_cases hn : name = ""
    · simp [hn]
    · simp [hn, alookup_ainsert_self]
  · intro cid2 hne
    exact alookup_ainsert_ne _ _ _ _ hne
  · show (saveMetadata s.diskFails _ s.disk).1 = _
    rw [hdisk]
    rfl

/-- Witness for C3 at a concrete router, annotating the engine-unknown id 5
with a non-empty name and one extra attribute. -/
theorem C3_set_cluster_metadata_contract_witness :
    (([("target_model", "gpt-4o-mini")] : MetaRecord).map Prod.fst).Nodup ∧
    witnessRouter.diskFails = false ∧
    (∃ r : MetaRecord,
      alookup (setClusterMetadata witnessRouter 5 "payments"
                 [("target_model", "gpt-4o-mini")]).clusterMetadata 5 = some r ∧
      (∀ k v, alookup [("target_model", "gpt-4o-mini")] k = some v → alookup r k = some v) ∧
      (∀ k, alookup [("target_model", "gpt-4o-mini")] k = none → k ≠ "name" →
        alookup r k = alookup ((alookup witnessRouter.clusterMetadata 5).getD []) k) ∧
      (alookup [("target_model", "gpt-4o-mini")] "name" = none →
        alookup r "name" =
          if ("payments" : String) = "" then
            alookup ((alookup witnessRouter.clusterMetadata 5).getD []) "name"
          else some "payments") ∧
      (∀ cid2, cid2 ≠ 5 →
        alookup (setClusterMetadata witnessRouter 5 "payments"
                   [("target_model", "gpt-4o-mini")]).clusterMetadata cid2
          = alookup witnessRouter.clusterMetadata cid2) ∧
      (setClusterMetadata witnessRouter 5 "payments"
         [("target_model", "gpt-4o-mini")]).disk
        = some (setClusterMetadata witnessRouter 5 "payments"
                  [("target_model", "gpt-4o-mini")]).clusterMetadata) :=
  ⟨by decide, rfl,
   C3_set_cluster_metadata_contract witnessRouter 5 "payments"
     [("target_model", "gpt-4o-mini")] (by decide) rfl⟩

/-- C7: when the durable save fails, no exception propagates to the caller
(`setClusterMetadata` stays total because `_save_metadata` swallows the
failure and only reports it), the in-memory overlay contains exactly the
update a succeeding save would have produced, the durable content is left
unchanged, and subsequent reads in the same process observe the new
metadata. -/
theorem C7_save_failure_keeps_memory (s : RouterState) (cid : Nat)
    (name : String) (kwargs : MetaRecord) (hfail : s.diskFails = true) :
    (setClusterMetadata s cid name kwargs).clusterMetadata
      = (setClusterMetadata { s with diskFails := false } cid name kwargs).clusterMetadata ∧
    (setClusterMetadata s cid name kwargs).disk = s.disk ∧
    (saveMetadata s.diskFails
       (setClusterMetadata s cid name kwargs).clusterMetadata s.disk).2 = true ∧
    ∃ r : MetaRecord,
      alookup (setClusterMetadata s cid name kwargs).clusterMetadata cid = some r ∧
      (alookup kwargs "name" = none → name ≠ "" → alookup r "name" = some name) := by
  refine ⟨rfl, ?_, ?_, ?_⟩
  · show (saveMetadata s.diskFails _ s.disk).1 = s.disk
    rw [hfail]
    rfl
  · rw [hfail]
    rfl
  · refine ⟨_, alookup_ainsert_self _ _ _, ?_⟩
    intro hk hn
    have hnm : "name" ∉ kwargs.map Prod.fst := (alookup_eq_none_iff _ _).1 hk
    show alookup (aupdate _ kwargs) "name" = some name
    rw [alookup_aupdate_of_not_mem _ _ _ hnm]
    simp [hn, alookup_ainsert_self]

/-- Witness router whose disk writes fail. -/
def witnessRouterFailingDisk : RouterState :=
  { engine := emptyEngine (mkRat 1 2),
    clusterMetadata := [(0, [("name", "old")])],
    disk := some [(0, [("name", "old")])],
    diskFails := true }

/-- Witness for C7 at a concrete router whose save fails. -/
theorem C7_save_failure_keeps_memory_witness :
    witnessRouterFailingDisk.diskFails = true ∧
    ((setClusterMetadata witnessRouterFailingDisk 0 "fresh"
        [("target_model", "gpt-5")]).clusterMetadata
      = (setClusterMetadata { witnessRouterFailingDisk with diskFails := false } 0 "fresh"
           [("target_model", "gpt-5")]).clusterMetadata ∧
     (setClusterMetadata witnessRouterFailingDisk 0 "fresh"
        [("target_model", "gpt-5")]).disk = witnessRouterFailingDisk.disk ∧
     (saveMetadata witnessRouterFailingDisk.diskFails
        (setClusterMetadata witnessRouterFailingDisk 0 "fresh"
           [("target_model", "gpt-5")]).clusterMetadata
        witnessRouterFailingDisk.disk).2 = true ∧
     ∃ r : MetaRecord,
       alookup (setClusterMetadata witnessRouterFailingDisk 0 "fresh"
                  [("target_model", "gpt-5")]).clusterMetadata 0 = some r ∧
       (alookup [("target_model", "gpt-5")] "name" = none → ("fresh" : String) ≠ "" →
         alookup r "name" = some "fresh")) :=
  ⟨rfl,
   C7_save_failure_keeps_memory witnessRouterFailingDisk 0 "fresh"
     [("target_model", "gpt-5")] rfl⟩

/-- An `AutoRouter` with no template route layer, used as concrete input. -/
def bareAutoRouter : AutoRouterState :=
  { defaultModel := "gpt-default", templateRoutelayer := none }

/-- C5 counterexample: with an empty-but-present message list there are no
messages to route on, yet `async_pre_routing_hook` evaluates `messages[-1]`
and fails with an index error instead of returning nothing. -/
theorem C5_counterexample_empty_messages :
    asyncPreRoutingHook bareAutoRouter (some []) = Except.error () ∧
    asyncPreRoutingHook bareAutoRouter (some [])
      ≠ Except.ok (none : Option PreRoutingHookResponse) := by
  constructor
  · rfl
  · intro h
    exact Except.noConfusion h

/-- C5 (amended): the hook returns nothing exactly when the messages argument
is absent; an empty-but-present message list instead fails with an index
error; a nonempty list routes on the last message's content, the response
model being the matched cluster's target handler when a cluster matches and
the caller-supplied default model when no cluster matches or no template
route layer exists, with the message list passed through unmodified. -/
theorem C5_amended_pre_routing_hook (ar : AutoRouterState) (msgs : List Msg)
    (lastMsg : Msg) (hlast : msgs.getLast? = some lastMsg) :
    asyncPreRoutingHook ar none = Except.ok none ∧
    asyncPreRoutingHook ar (some []) = Except.error () ∧
    (∀ tr : RouterState, ∀ r : MatchResult, ar.templateRoutelayer = some tr →
      tr.matchMsg (lastMsg.content.getD "") = some r →
      asyncPreRoutingHook ar (some msgs)
        = Except.ok (some { model := r.targetModel, messages := msgs })) ∧
    (∀ tr : RouterState, ar.templateRoutelayer = some tr →
      tr.matchMsg (lastMsg.content.getD "") = none →
      asyncPreRoutingHook ar (some msgs)
        = Except.ok (some { model := some ar.defaultModel, messages := msgs })) ∧
    (ar.templateRoutelayer = none →
      asyncPreRoutingHook ar (some msgs)
        = Except.ok (some { model := some ar.defaultModel, messages := msgs })) := by
  refine ⟨rfl, rfl, ?_, ?_, ?_⟩
  · intro tr r htr hm
    simp [asyncPreRoutingHook, hlast, htr, hm]
  · intro tr htr hm
    simp [asyncPreRoutingHook, hlast, htr, hm]
  · intro htr
    simp [asyncPreRoutingHook, hlast, htr]

/-- Witness message carrying a prompt that matches the witness cluster. -/
def witnessMsg : Msg := { content := some "user order 999 failed" }

/-- An `AutoRouter` whose template route layer is the witness router. -/
def witnessAutoRouter : AutoRouterState :=
  { defaultModel := "gpt-default", templateRoutelayer := some witnessRouter }

/-- Witness for the amended C5 at a concrete auto-router and a one-message
list whose last message matches a cluster with a target handler. -/
theorem C5_amended_pre_routing_hook_witness :
    [witnessMsg].getLast? = some witnessMsg ∧
    asyncPreRoutingHook witnessAutoRouter (some [witnessMsg])
      = Except.ok (some { model := some "gpt-4o", messages := [witnessMsg] }) := by
  refine ⟨rfl, ?_⟩
  have h := (C5_amended_pre_routing_hook witnessAutoRouter [witnessMsg] witnessMsg rfl).2.2.1
      witnessRouter
      { clusterId := 0, template := ["user", "order", "*", "failed"], size := 3,
        name := "order-failures", targetModel := some "gpt-4o" }
      rfl (by decide)
  simpa using h

/-- C10: when the hook finds a matching cluster whose metadata record has no
target-handler entry (or no record exists at all), the response model is
nothing rather than the caller-supplied default model, because the match
dict always carries the target_model key, whose value is then `None`. -/
theorem C10_missing_target_model_yields_none (ar : AutoRouterState)
    (tr : RouterState) (msgs : List Msg) (lastMsg : Msg) (c : Cluster)
    (htr : ar.templateRoutelayer = some tr)
    (hlast : msgs.getLast? = some lastMsg)
    (hm : tr.engine.findMatch (lastMsg.content.getD "") = some c)
    (hmeta : alookup ((alookup tr.clusterMetadata c.clusterId).getD []) "target_model"
               = none) :
    asyncPreRoutingHook ar (some msgs)
      = Except.ok (some { model := none, messages := msgs }) ∧
    (none : Option String) ≠ some ar.defaultModel := by
  constructor
  · simp [asyncPreRoutingHook, hlast, htr, RouterState.matchMsg, hm, hmeta]
  · simp

/-- Witness router identical to the witness router except that its metadata
record carries no target handler. -/
def witnessRouterNoTarget : RouterState :=
  { engine := { threshold := mkRat 1 2, nextId := 1, clusters := [witnessCluster] },
    clusterMetadata := [(0, [("name", "order-failures")])],
    disk := none, diskFails := false }

/-- An `AutoRouter` whose template route layer has no target handler stored
for the matching cluster. -/
def witnessAutoRouterNoTarget : AutoRouterState :=
  { defaultModel := "gpt-default", templateRoutelayer := some witnessRouterNoTarget }

/-- Witness for C10 at a concrete auto-router whose matched cluster has a
metadata record without a target handler. -/
theorem C10_missing_target_model_yields_none_witness :
    asyncPreRoutingHook witnessAutoRouterNoTarget (some [witnessMsg])
      = Except.ok (some { model := none, messages := [witnessMsg] }) ∧
    (none : Option String) ≠ some witnessAutoRouterNoTarget.defaultModel :=
  C10_missing_target_model_yields_none witnessAutoRouterNoTarget witnessRouterNoTarget
    [witnessMsg] witnessMsg witnessCluster rfl rfl (by decide) (by decide)
